import Mathlib

/-!
# luapng: verification of `luapng_load` (src/luapng.c)

`luapng_load` opens a file, checks the PNG signature, drives libpng through
header parsing and scanline reading, and hands a padded pixel block back to Lua.

The embedding below follows the C function line by line.  Everything the
function cannot decide by itself is an explicit input (`Env`): the Lua
argument, the outcome of `fopen`, the indeterminate initial bytes of the local
array `header`, the answers of libpng, and the outcomes of the two `malloc`
calls.  A run yields the chronological list of resource events together with
what the Lua caller observes.

C integers are mathematical integers reduced explicitly: `int` and
`unsigned int` / `png_uint_32` are 32 bits wide, `size_t` is 64 bits wide.
-/

namespace LuaPng

/-- One octet, kept as a natural number. -/
abbrev Byte := Nat

/-! ## C integer conversions -/

/-- Value stored in an `int` (32-bit two's complement) when the mathematical
result is `x`. -/
def int32 (x : Int) : Int := (x + 2147483648) % 4294967296 - 2147483648

/-- Value of an `int` after conversion to `unsigned int`. -/
def int_to_u32 (x : Int) : Nat := (x % 4294967296).toNat

/-- Reduction of an `unsigned int` / `png_uint_32` result modulo `2^32`
(`png_uint_32` is libpng's 32-bit unsigned type, `unsigned int`). -/
def u32 (n : Nat) : Nat := n % 4294967296

/-- Reduction of a `size_t` result modulo `2^64`. -/
def size_t (n : Nat) : Nat := n % 18446744073709551616

/-- The constant `sizeof(png_byte)`. -/
def sizeof_png_byte : Nat := 1

/-! ## libpng constants and the signature test -/

/-- The constant `PNG_COLOR_TYPE_RGB` of png.h. -/
def PNG_COLOR_TYPE_RGB : Int := 2

/-- The constant `PNG_COLOR_TYPE_RGB_ALPHA` of png.h. -/
def PNG_COLOR_TYPE_RGB_ALPHA : Int := 6

/-- The eight bytes every PNG file starts with. -/
def png_signature : List Byte := [137, 80, 78, 71, 13, 10, 26, 10]

/-- The call `png_sig_cmp(header, 0, 8)`: zero exactly when the eight bytes of
`header` are the PNG signature. -/
def png_sig_cmp (header : List Byte) : Int :=
  if header = png_signature then 0 else 1

/-- The call `fread(buf, 1, nmemb, fp)` on a freshly opened file holding
`content`: the bytes that could be read overwrite the front of `buf`, the rest
of `buf` keeps whatever it held. -/
def fread (buf : List Byte) (nmemb : Nat) (content : List Byte) : List Byte :=
  content.take nmemb ++ buf.drop (min nmemb content.length)

/-! ## Row arithmetic (lines 103-111 and 131-135) -/

/-- The statement `rowbytes += 3 - ((rowbytes-1) % 4);` on an `int`.  The C
operator `%` truncates towards zero. -/
def align4 (rowbytes : Int) : Int :=
  int32 (rowbytes + (3 - Int.tmod (int32 (rowbytes - 1)) 4))

/-- The initializer `rowbytes * temp_height * sizeof(png_byte) + 15`:
`int * png_uint_32` is computed in `unsigned int`, the remaining product and
sum in `size_t`. -/
def image_data_size (rowbytes : Int) (temp_height : Nat) : Nat :=
  size_t (size_t (u32 (int_to_u32 rowbytes * temp_height) * sizeof_png_byte) + 15)

/-- The offset `i * rowbytes` added to `image_data` for row `i`:
`unsigned int * int` is computed in `unsigned int`. -/
def row_start (rowbytes : Int) (i : Nat) : Nat :=
  u32 (i * int_to_u32 rowbytes)

/-- The array filled by the loop of lines 132-135, as offsets from
`image_data`. -/
def row_pointers (rowbytes : Int) (temp_height : Nat) : List Nat :=
  (List.range temp_height).map (row_start rowbytes)

/-- Memory seen from `image_data` after the decoder stored `n` bytes of each
row at the given row pointers, first row first; `i` is the index of the row the
head of the list belongs to. -/
def write_rows (px : Nat → Nat → Byte) (n : Nat) :
    Nat → List Nat → (Nat → Byte) → (Nat → Byte)
  | _, [], mem => mem
  | i, p :: ps, mem =>
      write_rows px n (i + 1) ps
        (fun a => if p ≤ a ∧ a < p + n then px i (a - p) else mem a)

/-- The call `png_read_image(png_ptr, row_pointers)` when it completes: each
decoded row of `row_bytes` bytes is stored at its row pointer. -/
def png_read_image (mem : Nat → Byte) (ptrs : List Nat) (row_bytes : Nat)
    (px : Nat → Nat → Byte) : Nat → Byte :=
  write_rows px row_bytes 0 ptrs mem

/-- `m` is the smallest multiple of 4 that is at least `r`. -/
def is_round_up4 (r m : Int) : Prop :=
  4 ∣ m ∧ r ≤ m ∧ ∀ k : Int, 4 ∣ k → r ≤ k → m ≤ k

/-! ## Lua side -/

/-- Argument 1 of the Lua call, as far as `luaL_checktype` distinguishes. -/
inductive LuaValue where
  | string (s : String)
  | non_string
deriving DecidableEq

/-- An argument consumed by a `%s` or `%d` directive. -/
inductive FmtArg where
  | s (v : String)
  | d (v : Int)
deriving DecidableEq

/-- What `luaL_error(L, fmt, ...)` raises: the format and its arguments. -/
structure LuaError where
  fmt : String
  args : List FmtArg
deriving DecidableEq

/-- The call `luaL_error(L, fmt, ...)`. -/
def luaL_error (fmt : String) (args : List FmtArg) : LuaError := ⟨fmt, args⟩

/-- The four values pushed before `return 4`. -/
structure Image where
  pixels : List Byte
  width : Nat
  height : Nat
  has_alpha : Bool
deriving DecidableEq

/-- What the Lua caller observes. -/
inductive Outcome where
  | type_error
  | error (err : LuaError)
  | ok (img : Image)
deriving DecidableEq

/-! ## Resources -/

/-- Acquisitions and releases performed by `luapng_load`.  The two flags of
`png_destroy_read_struct` tell whether `&info_ptr` and `&end_info` were passed
(rather than `NULL`). -/
inductive Event where
  | fopen
  | fclose
  | png_create_read_struct
  | png_create_info_struct
  | png_create_end_info_struct
  | png_destroy_read_struct (info end_info : Bool)
  | malloc_image_data
  | malloc_row_pointers
  | free_image_data
  | free_row_pointers
deriving DecidableEq

/-- Which resources are live. -/
structure Resources where
  file : Bool
  png_ptr : Bool
  info_ptr : Bool
  end_info : Bool
  image_data : Bool
  row_pointers : Bool
deriving DecidableEq

/-- Effect of one event on the live resources. -/
def Resources.step (r : Resources) : Event → Resources
  | .fopen => { r with file := true }
  | .fclose => { r with file := false }
  | .png_create_read_struct => { r with png_ptr := true }
  | .png_create_info_struct => { r with info_ptr := true }
  | .png_create_end_info_struct => { r with end_info := true }
  | .png_destroy_read_struct i e =>
      { r with png_ptr := false, info_ptr := r.info_ptr && !i,
               end_info := r.end_info && !e }
  | .malloc_image_data => { r with image_data := true }
  | .malloc_row_pointers => { r with row_pointers := true }
  | .free_image_data => { r with image_data := false }
  | .free_row_pointers => { r with row_pointers := false }

/-- Live resources once all events of a trace happened, starting with none. -/
def resources_after (t : List Event) : Resources :=
  t.foldl Resources.step ⟨false, false, false, false, false, false⟩

/-- Some part of the decoder context (read struct or info structs) is live. -/
def Resources.decoder (r : Resources) : Bool :=
  r.png_ptr || r.info_ptr || r.end_info

/-- Every event satisfying `a` comes before every event satisfying `b`: once
the first `b` event of the trace is reached, no `a` event follows. -/
def all_before (a b : Event → Bool) (t : List Event) : Bool :=
  (t.dropWhile (fun x => !b x)).all (fun x => !a x)

/-! ## The environment of one call -/

/-- What `png_get_IHDR` stores. -/
structure IHDR where
  width : Nat
  height : Nat
  bit_depth : Int
  color_type : Int

/-- The answers of libpng during one call.  `none` stands for a fault that
libpng reports through `longjmp` to the `setjmp` of line 55. -/
structure Decoder where
  create_read_struct : Bool
  create_info_struct : Bool
  create_end_info_struct : Bool
  read_info : Option IHDR
  read_update_info : Bool
  rowbytes : Nat
  read_image : Option (Nat → Nat → Byte)

/-- Everything `luapng_load` depends on.  `file` is `none` when `fopen` fails
and the file content otherwise; `header` is the indeterminate initial content
of the local array `png_byte header[8]`; `image_data` is `none` when the first
`malloc` returns `NULL` and otherwise the indeterminate initial memory, indexed
by the offset from the returned pointer; `row_pointers` tells whether the
second `malloc` succeeds. -/
structure Env where
  arg : LuaValue
  file : Option (List Byte)
  header : List Byte
  png : Decoder
  image_data : Option (Nat → Byte)
  row_pointers : Bool

/-- A run: the resource events in program order and the observable outcome. -/
structure Run where
  trace : List Event
  out : Outcome

/-! ## The function -/

/-- The function `luapng_load` of src/luapng.c. -/
def luapng_load (e : Env) : Run :=
  -- luaL_checktype(L, 1, LUA_TSTRING); file_name = lua_tostring(L, 1);
  match e.arg with
  | .non_string => ⟨[], .type_error⟩
  | .string file_name =>
  -- FILE *fp = fopen(file_name, "rb");
  match e.file with
  | none => ⟨[], .error (luaL_error "can't open %s" [.s file_name])⟩
  | some content =>
  let t := [Event.fopen]
  -- fread(header, 1, 8, fp);
  let header := fread e.header 8 content
  if png_sig_cmp header ≠ 0 then
    ⟨t ++ [.fclose], .error (luaL_error "%s is not a PNG" [.s file_name])⟩
  else
  -- png_create_read_struct
  if e.png.create_read_struct = false then
    ⟨t ++ [.fclose], .error (luaL_error "can't read %s" [.s file_name])⟩
  else
  let t := t ++ [.png_create_read_struct]
  -- png_create_info_struct (info_ptr)
  if e.png.create_info_struct = false then
    ⟨t ++ [.png_destroy_read_struct false false, .fclose],
      .error (luaL_error "can't read info from %s" [.s file_name])⟩
  else
  let t := t ++ [.png_create_info_struct]
  -- png_create_info_struct (end_info)
  if e.png.create_end_info_struct = false then
    ⟨t ++ [.png_destroy_read_struct true false, .fclose],
      .error (luaL_error "can't read info from %s" [.s file_name])⟩
  else
  let t := t ++ [.png_create_end_info_struct]
  -- the body of `if (setjmp(png_jmpbuf(png_ptr)))`, entered on a libpng fault
  let fault (t : List Event) : Run :=
    ⟨t ++ [.png_destroy_read_struct true true, .fclose],
      .error (luaL_error "error from libpng while loading %s" [.s file_name])⟩
  -- png_init_io; png_set_sig_bytes; png_read_info; png_get_IHDR
  match e.png.read_info with
  | none => fault t
  | some ihdr =>
  let temp_width := ihdr.width
  let temp_height := ihdr.height
  let bit_depth := ihdr.bit_depth
  let color_type := ihdr.color_type
  if bit_depth ≠ 8 then
    ⟨t, .error (luaL_error "%s: unsupported bit depth %d, must be 8"
      [.s file_name, .d bit_depth])⟩
  else
  -- switch(color_type)
  let sw : Option Bool :=
    if color_type = PNG_COLOR_TYPE_RGB then some false
    else if color_type = PNG_COLOR_TYPE_RGB_ALPHA then some true
    else none
  match sw with
  | none =>
    ⟨t, .error (luaL_error "%s: unknown libpng color type %d"
      [.s file_name, .d color_type])⟩
  | some has_alpha =>
  -- png_read_update_info
  if e.png.read_update_info = false then fault t
  else
  -- int rowbytes = png_get_rowbytes(png_ptr, info_ptr);
  let rowbytes := int32 e.png.rowbytes
  -- rowbytes += 3 - ((rowbytes-1) % 4);
  let rowbytes := align4 rowbytes
  let size := image_data_size rowbytes temp_height
  -- image_data = malloc(image_data_size)
  match e.image_data with
  | none =>
    ⟨t ++ [.png_destroy_read_struct true true, .fclose],
      .error (luaL_error "%s: could not allocate memory for image data"
        [.s file_name])⟩
  | some mem =>
  let t := t ++ [.malloc_image_data]
  -- row_pointers = malloc(temp_height * sizeof(png_byte *))
  if e.row_pointers = false then
    ⟨t ++ [.png_destroy_read_struct true true, .free_image_data, .fclose],
      .error (luaL_error "%s: could not allocate memory for row pointers"
        [.s file_name])⟩
  else
  let t := t ++ [.malloc_row_pointers]
  let ptrs := row_pointers rowbytes temp_height
  -- png_read_image(png_ptr, row_pointers)
  match e.png.read_image with
  | none => fault t
  | some px =>
  let mem := png_read_image mem ptrs e.png.rowbytes px
  -- lua_pushlstring, lua_pushnumber (twice), lua_pushboolean; clean up
  ⟨t ++ [.png_destroy_read_struct true true, .free_image_data,
         .free_row_pointers, .fclose],
    .ok ⟨(List.range size).map mem, temp_width, temp_height, has_alpha⟩⟩

/-! ## Concrete inputs -/

/-- A decoder that accepts the file and reports the given header and row size,
decoding every row to the bytes `px`. -/
def decoder_ok (ihdr : IHDR) (rowbytes : Nat) (px : Nat → Nat → Byte) : Decoder :=
  ⟨true, true, true, some ihdr, true, rowbytes, some px⟩

/-- A call on a readable PNG file with the given decoder, where both
allocations succeed and fresh memory holds zeros. -/
def env_ok (content : List Byte) (png : Decoder) : Env :=
  ⟨.string "a.png", some content, [0, 0, 0, 0, 0, 0, 0, 0], png,
    some (fun _ => 0), true⟩

/-- Pixel bytes of a solid red RGB image. -/
def red (_ j : Nat) : Byte := if j % 3 = 0 then 255 else 0

/-- A 2×2 solid red 8-bit RGB image: six bytes per row. -/
def env_red : Env :=
  env_ok png_signature (decoder_ok ⟨2, 2, 8, PNG_COLOR_TYPE_RGB⟩ 6 red)

/-! ## Predicates used in the statements -/

/-- The call gets as far as `png_get_IHDR`: the argument is the string
`file_name`, the file opens, its header passes `png_sig_cmp`, the three libpng
structs are created and `png_read_info` reports `ihdr`. -/
def header_parsed (e : Env) (file_name : String) (ihdr : IHDR) : Prop :=
  e.arg = .string file_name ∧
  (∃ content, e.file = some content ∧ png_sig_cmp (fread e.header 8 content) = 0) ∧
  e.png.create_read_struct = true ∧
  e.png.create_info_struct = true ∧
  e.png.create_end_info_struct = true ∧
  e.png.read_info = some ihdr

/-- After the header, nothing else goes wrong: `png_read_update_info` and
`png_read_image` complete (the latter decoding to `px`) and both allocations
succeed, the pixel block initially holding `mem`. -/
def rest_succeeds (e : Env) (mem : Nat → Byte) (px : Nat → Nat → Byte) : Prop :=
  e.png.read_update_info = true ∧
  e.image_data = some mem ∧
  e.row_pointers = true ∧
  e.png.read_image = some px

/-- The event closes the file. -/
def Event.is_fclose : Event → Bool
  | .fclose => true
  | _ => false

/-- The event releases the decoder context. -/
def Event.is_destroy : Event → Bool
  | .png_destroy_read_struct _ _ => true
  | _ => false

/-- The event frees the pixel block or the row-pointer array. -/
def Event.is_free : Event → Bool
  | .free_image_data => true
  | .free_row_pointers => true
  | _ => false

/-- For a decoder row size `row_bytes` and height `height`, every row the
decoder writes, `[row_start i, row_start i + row_bytes)`, lies inside the
allocated block of `image_data_size` bytes. -/
def rows_inside (row_bytes height : Nat) : Prop :=
  ∀ i, i < height →
    row_start (align4 (int32 row_bytes)) i + row_bytes
      ≤ image_data_size (align4 (int32 row_bytes)) height

/-- For a decoder row size `row_bytes` and height `height`, the byte ranges of
two different rows do not overlap. -/
def rows_disjoint (row_bytes height : Nat) : Prop :=
  ∀ i j, i < height → j < height → i ≠ j →
    row_start (align4 (int32 row_bytes)) i + row_bytes
        ≤ row_start (align4 (int32 row_bytes)) j ∨
    row_start (align4 (int32 row_bytes)) j + row_bytes
        ≤ row_start (align4 (int32 row_bytes)) i

/-! ## Further concrete inputs -/

/-- A 40000×40000 8-bit RGB image: 120000 bytes per row. -/
def env_big : Env :=
  env_ok png_signature (decoder_ok ⟨40000, 40000, 8, PNG_COLOR_TYPE_RGB⟩ 120000 red)

/-- A 1×2147483647 8-bit RGB image: 3 bytes per row. -/
def env_tall : Env :=
  env_ok png_signature (decoder_ok ⟨1, 2147483647, 8, PNG_COLOR_TYPE_RGB⟩ 3 red)

/-- A 2×2 RGB image with 16 bits per channel. -/
def env_deep : Env :=
  env_ok png_signature (decoder_ok ⟨2, 2, 16, PNG_COLOR_TYPE_RGB⟩ 12 red)

/-- A 2×2 8-bit grayscale image (color type 0). -/
def env_gray : Env :=
  env_ok png_signature (decoder_ok ⟨2, 2, 8, 0⟩ 2 red)

/-- A 2×2 8-bit RGBA image. -/
def env_rgba : Env :=
  env_ok png_signature (decoder_ok ⟨2, 2, 8, PNG_COLOR_TYPE_RGB_ALPHA⟩ 8 red)

/-- An 8-bit RGB file whose image data is damaged: libpng faults inside
`png_read_image`. -/
def env_damaged : Env :=
  env_ok png_signature ⟨true, true, true, some ⟨2, 2, 8, PNG_COLOR_TYPE_RGB⟩, true, 6, none⟩

/-- The 2×2 red image when the allocation of the row pointers fails. -/
def env_no_rows : Env :=
  { env_red with row_pointers := false }

/-- An empty file, opened while the eight bytes of `header` still hold a PNG
signature (as left on the stack by an earlier call); libpng then faults on the
missing data in `png_read_info`. -/
def env_empty : Env :=
  ⟨.string "empty.bin", some [], png_signature,
    ⟨true, true, true, none, true, 0, none⟩, some (fun _ => 0), true⟩

/-- Expansion of the directives `%s` and `%d` of a format, as done by
`lua_pushvfstring` for `luaL_error`. -/
def format_chars : List Char → List FmtArg → List Char
  | '%' :: 's' :: cs, .s v :: as => v.toList ++ format_chars cs as
  | '%' :: 'd' :: cs, .d v :: as => (toString v).toList ++ format_chars cs as
  | c :: cs, as => c :: format_chars cs as
  | [], _ => []

/-- The message text of an error raised by `luaL_error`. -/
def LuaError.message (err : LuaError) : String :=
  String.mk (format_chars err.fmt.toList err.args)

/-! ## Arithmetic of the alignment step -/

theorem int32_of_fits (x : Int) (hlo : -2147483648 ≤ x) (hhi : x ≤ 2147483647) :
    int32 x = x := by
  unfold int32; omega

theorem align4_of_fits (rb : Int) (hpos : 0 < rb) (hfit : rb ≤ 2147483644) :
    align4 rb = rb + (3 - (rb - 1) % 4) := by
  unfold align4
  rw [int32_of_fits (rb - 1) (by omega) (by omega),
    Int.tmod_eq_emod (by omega) (by omega)]
  exact int32_of_fits _ (by omega) (by omega)

/-- C2, as stated, fails: for `rowbytes = 2147483646` (an `int` value, the row
size of an 8-bit RGB image 715827882 pixels wide) the alignment step does not
yield the smallest multiple of 4 above it; no `int` is such a multiple. -/
theorem align4_top_of_int_range :
    ¬ is_round_up4 2147483646 (align4 2147483646) ∧
    align4 2147483646 = -2147483648 ∧
    ¬ ∃ r : Int, int32 r = r ∧ 4 ∣ r ∧ 2147483646 ≤ r := by
  have h : align4 2147483646 = -2147483648 := by decide
  refine ⟨?_, h, ?_⟩
  · rintro ⟨-, hle, -⟩
    rw [h] at hle
    omega
  · rintro ⟨r, hr, hdvd, hle⟩
    unfold int32 at hr
    omega

/-- C2, amended: for every `rowbytes` with `0 < rowbytes ≤ 2147483644` the
alignment step yields the smallest multiple of 4 that is at least `rowbytes`,
adding between 0 and 3 bytes; and 1, 4, 5, 9 are taken to 4, 4, 8, 12. -/
theorem align4_round_up (rb : Int) (hpos : 0 < rb) (hfit : rb ≤ 2147483644) :
    is_round_up4 rb (align4 rb) ∧
    0 ≤ align4 rb - rb ∧ align4 rb - rb ≤ 3 ∧
    align4 1 = 4 ∧ align4 4 = 4 ∧ align4 5 = 8 ∧ align4 9 = 12 := by
  have h := align4_of_fits rb hpos hfit
  refine ⟨⟨?_, ?_, ?_⟩, ?_, ?_, by decide, by decide, by decide, by decide⟩
  · rw [h]; omega
  · rw [h]; omega
  · intro k hk hle
    rw [h]; omega
  · rw [h]; omega
  · rw [h]; omega

theorem align4_round_up_witness :
    (0 : Int) < 6 ∧ (6 : Int) ≤ 2147483644 ∧ is_round_up4 6 (align4 6) :=
  ⟨by decide, by decide, (align4_round_up 6 (by decide) (by decide)).1⟩

/-! ## The paths of `luapng_load` -/

theorem luapng_load_of_header (e : Env) (file_name : String) (ihdr : IHDR)
    (h : header_parsed e file_name ihdr) :
    luapng_load e =
      if ihdr.bit_depth ≠ 8 then
        ⟨[.fopen, .png_create_read_struct, .png_create_info_struct,
            .png_create_end_info_struct],
          .error (luaL_error "%s: unsupported bit depth %d, must be 8"
            [.s file_name, .d ihdr.bit_depth])⟩
      else if ihdr.color_type ≠ PNG_COLOR_TYPE_RGB ∧
          ihdr.color_type ≠ PNG_COLOR_TYPE_RGB_ALPHA then
        ⟨[.fopen, .png_create_read_struct, .png_create_info_struct,
            .png_create_end_info_struct],
          .error (luaL_error "%s: unknown libpng color type %d"
            [.s file_name, .d ihdr.color_type])⟩
      else luapng_load e := by
  obtain ⟨harg, ⟨content, hfile, hsig⟩, h1, h2, h3, hinfo⟩ := h
  split
  · next hd => simp [luapng_load, harg, hfile, hsig, h1, h2, h3, hinfo, hd]
  · split
    · next hd hc =>
      simp only [ne_eq, not_not] at hd
      obtain ⟨hc1, hc2⟩ := hc
      simp [luapng_load, harg, hfile, hsig, h1, h2, h3, hinfo, hd, hc1, hc2]
    · rfl

theorem luapng_load_ok (e : Env) (file_name : String) (ihdr : IHDR)
    (mem : Nat → Byte) (px : Nat → Nat → Byte)
    (h : header_parsed e file_name ihdr) (hd : ihdr.bit_depth = 8)
    (hc : ihdr.color_type = PNG_COLOR_TYPE_RGB ∨
      ihdr.color_type = PNG_COLOR_TYPE_RGB_ALPHA)
    (hr : rest_succeeds e mem px) :
    luapng_load e =
      ⟨[.fopen, .png_create_read_struct, .png_create_info_struct,
          .png_create_end_info_struct, .malloc_image_data, .malloc_row_pointers,
          .png_destroy_read_struct true true, .free_image_data,
          .free_row_pointers, .fclose],
        .ok ⟨(List.range (image_data_size (align4 (int32 e.png.rowbytes)) ihdr.height)).map
              (png_read_image mem
                (row_pointers (align4 (int32 e.png.rowbytes)) ihdr.height)
                e.png.rowbytes px),
            ihdr.width, ihdr.height,
            decide (ihdr.color_type = PNG_COLOR_TYPE_RGB_ALPHA)⟩⟩ := by
  obtain ⟨harg, ⟨content, hfile, hsig⟩, h1, h2, h3, hinfo⟩ := h
  obtain ⟨r1, r2, r3, r4⟩ := hr
  rcases hc with hc | hc
  · simp [luapng_load, harg, hfile, hsig, h1, h2, h3, hinfo, hd, hc, r1, r2, r3, r4,
      PNG_COLOR_TYPE_RGB, PNG_COLOR_TYPE_RGB_ALPHA]
  · simp [luapng_load, harg, hfile, hsig, h1, h2, h3, hinfo, hd, hc, r1, r2, r3, r4,
      PNG_COLOR_TYPE_RGB, PNG_COLOR_TYPE_RGB_ALPHA]

/-- Whatever happens after an accepted header, a returned image carries the
alpha flag chosen by the `switch`, and the color type was RGB or RGBA. -/
theorem has_alpha_of_ok (e : Env) (file_name : String) (ihdr : IHDR) (img : Image)
    (h : header_parsed e file_name ihdr)
    (hok : (luapng_load e).out = .ok img) :
    img.has_alpha = decide (ihdr.color_type = PNG_COLOR_TYPE_RGB_ALPHA) ∧
    (ihdr.color_type = PNG_COLOR_TYPE_RGB ∨
      ihdr.color_type = PNG_COLOR_TYPE_RGB_ALPHA) := by
  obtain ⟨harg, ⟨content, hfile, hsig⟩, h1, h2, h3, hinfo⟩ := h
  simp only [PNG_COLOR_TYPE_RGB, PNG_COLOR_TYPE_RGB_ALPHA]
  by_cases hd : ihdr.bit_depth = 8
  · by_cases hc1 : ihdr.color_type = 2 <;>
    by_cases hc2 : ihdr.color_type = 6 <;>
    rcases hu : e.png.read_update_info with _ | _ <;>
    rcases hm : e.image_data with _ | mem <;>
    rcases hp : e.row_pointers with _ | _ <;>
    rcases hi : e.png.read_image with _ | px <;>
    simp [luapng_load, harg, hfile, hsig, h1, h2, h3, hinfo, hd, hc1, hc2,
      hu, hm, hp, hi, PNG_COLOR_TYPE_RGB, PNG_COLOR_TYPE_RGB_ALPHA] at hok ⊢ <;>
    (subst hok; rfl)
  · simp [luapng_load, harg, hfile, hsig, h1, h2, h3, hinfo, hd] at hok

/-! ## Validation of the header -/

/-- C3: for a header with bit depth 8, a returned image has `has_alpha = true`
exactly for color type RGBA and `has_alpha = false` exactly for RGB, such an
image is returned when nothing later fails, and any other color type raises the
"unknown libpng color type" error carrying that color type, before the pixel
block is allocated. -/
theorem has_alpha_iff_color_type (e : Env) (file_name : String) (ihdr : IHDR)
    (h : header_parsed e file_name ihdr) (hd : ihdr.bit_depth = 8) :
    (∀ img, (luapng_load e).out = .ok img →
      (img.has_alpha = true ↔ ihdr.color_type = PNG_COLOR_TYPE_RGB_ALPHA) ∧
      (img.has_alpha = false ↔ ihdr.color_type = PNG_COLOR_TYPE_RGB)) ∧
    (∀ mem px, rest_succeeds e mem px →
      (ihdr.color_type = PNG_COLOR_TYPE_RGB_ALPHA →
        ∃ img, (luapng_load e).out = .ok img ∧ img.has_alpha = true) ∧
      (ihdr.color_type = PNG_COLOR_TYPE_RGB →
        ∃ img, (luapng_load e).out = .ok img ∧ img.has_alpha = false)) ∧
    (ihdr.color_type ≠ PNG_COLOR_TYPE_RGB →
      ihdr.color_type ≠ PNG_COLOR_TYPE_RGB_ALPHA →
      (luapng_load e).out =
        .error (luaL_error "%s: unknown libpng color type %d"
          [.s file_name, .d ihdr.color_type]) ∧
      (luaL_error "%s: unknown libpng color type %d"
          [.s file_name, .d ihdr.color_type]).message =
        file_name ++ (": unknown libpng color type " ++ toString ihdr.color_type) ∧
      Event.malloc_image_data ∉ (luapng_load e).trace) := by
  have hne : PNG_COLOR_TYPE_RGB ≠ PNG_COLOR_TYPE_RGB_ALPHA := by decide
  refine ⟨?_, ?_, ?_⟩
  · intro img hok
    obtain ⟨ha, hc⟩ := has_alpha_of_ok e file_name ihdr img h hok
    rw [ha]
    rcases hc with hc | hc
    · simp [hc, hne]
    · simp [hc, hne.symm]
  · intro mem px hr
    constructor
    · intro hc
      rw [luapng_load_ok e file_name ihdr mem px h hd (Or.inr hc) hr]
      exact ⟨_, rfl, by simp [hc]⟩
    · intro hc
      rw [luapng_load_ok e file_name ihdr mem px h hd (Or.inl hc) hr]
      exact ⟨_, rfl, by simp [hc, hne]⟩
  · intro hc1 hc2
    rw [luapng_load_of_header e file_name ihdr h]
    simp [hd, hc1, hc2]
    apply String.ext
    simp [LuaError.message, luaL_error, format_chars]

theorem has_alpha_iff_color_type_witness :
    header_parsed env_rgba "a.png" ⟨2, 2, 8, PNG_COLOR_TYPE_RGB_ALPHA⟩ ∧
    ∃ img, (luapng_load env_rgba).out = .ok img ∧ img.has_alpha = true :=
  have h : header_parsed env_rgba "a.png" ⟨2, 2, 8, PNG_COLOR_TYPE_RGB_ALPHA⟩ :=
    ⟨rfl, ⟨png_signature, rfl, rfl⟩, rfl, rfl, rfl, rfl⟩
  ⟨h, ((has_alpha_iff_color_type env_rgba "a.png" _ h rfl).2.1
    (fun _ => 0) red ⟨rfl, rfl, rfl, rfl⟩).1 rfl⟩

/-- C5: whenever the parsed header has a bit depth other than 8, whatever its
color type, the call raises the "unsupported bit depth" error whose message
contains that bit depth; it raises no color-type error and returns no image. -/
theorem bit_depth_rejected (e : Env) (file_name : String) (ihdr : IHDR)
    (h : header_parsed e file_name ihdr) (hd : ihdr.bit_depth ≠ 8) :
    (luapng_load e).out =
      .error (luaL_error "%s: unsupported bit depth %d, must be 8"
        [.s file_name, .d ihdr.bit_depth]) ∧
    (luaL_error "%s: unsupported bit depth %d, must be 8"
        [.s file_name, .d ihdr.bit_depth]).message =
      file_name ++ (": unsupported bit depth " ++
        (toString ihdr.bit_depth ++ ", must be 8")) ∧
    (∀ args, (luapng_load e).out ≠
      .error (luaL_error "%s: unknown libpng color type %d" args)) ∧
    (∀ img, (luapng_load e).out ≠ .ok img) := by
  rw [luapng_load_of_header e file_name ihdr h]
  simp [hd, luaL_error]
  rfl

theorem bit_depth_rejected_witness :
    header_parsed env_deep "a.png" ⟨2, 2, 16, PNG_COLOR_TYPE_RGB⟩ ∧
    (luapng_load env_deep).out =
      .error (luaL_error "%s: unsupported bit depth %d, must be 8"
        [.s "a.png", .d 16]) :=
  have h : header_parsed env_deep "a.png" ⟨2, 2, 16, PNG_COLOR_TYPE_RGB⟩ :=
    ⟨rfl, ⟨png_signature, rfl, rfl⟩, rfl, rfl, rfl, rfl⟩
  ⟨h, (bit_depth_rejected env_deep "a.png" _ h (by decide)).1⟩

/-! ## Size of the pixel block and position of the rows -/

theorem header_parsed_env_ok (ihdr : IHDR) (n : Nat) (px : Nat → Nat → Byte) :
    header_parsed (env_ok png_signature (decoder_ok ihdr n px)) "a.png" ihdr :=
  ⟨rfl, ⟨png_signature, rfl, rfl⟩, rfl, rfl, rfl, rfl⟩

theorem luapng_load_env_ok (ihdr : IHDR) (n : Nat) (px : Nat → Nat → Byte)
    (hd : ihdr.bit_depth = 8)
    (hc : ihdr.color_type = PNG_COLOR_TYPE_RGB ∨
      ihdr.color_type = PNG_COLOR_TYPE_RGB_ALPHA) :
    (luapng_load (env_ok png_signature (decoder_ok ihdr n px))).out =
      .ok ⟨(List.range (image_data_size (align4 (int32 n)) ihdr.height)).map
            (png_read_image (fun _ => 0) (row_pointers (align4 (int32 n)) ihdr.height) n px),
          ihdr.width, ihdr.height,
          decide (ihdr.color_type = PNG_COLOR_TYPE_RGB_ALPHA)⟩ := by
  rw [luapng_load_ok _ "a.png" ihdr (fun _ => 0) px (header_parsed_env_ok ihdr n px) hd hc
    ⟨rfl, rfl, rfl, rfl⟩]
  rfl

/-- C1 at a 40000×40000 8-bit RGB image (120000 bytes per row): the call
returns width and height 40000 and a string of 505032719 bytes, whereas
align4(row_bytes) × H + 15 is 4800000015. -/
theorem load_big_length :
    ∃ img, (luapng_load env_big).out = .ok img ∧
      img.width = 40000 ∧ img.height = 40000 ∧
      img.pixels.length = 505032719 ∧
      align4 (int32 120000) * 40000 + 15 = 4800000015 := by
  have h := luapng_load_env_ok ⟨40000, 40000, 8, PNG_COLOR_TYPE_RGB⟩ 120000 red rfl (Or.inl rfl)
  refine ⟨_, h, rfl, rfl, ?_, by decide⟩
  simp only [List.length_map, List.length_range]
  decide

/-- C10 at row_bytes = 120000 and H = 40000: the block has 505032719 bytes, row
5000 starts at offset 600000000, outside of it, and row 35792 starts at offset
72704, inside the range of row 0; so neither containment nor disjointness of
the row ranges holds. -/
theorem rows_big_unsafe :
    image_data_size (align4 (int32 120000)) 40000 = 505032719 ∧
    row_start (align4 (int32 120000)) 5000 = 600000000 ∧
    row_start (align4 (int32 120000)) 35792 = 72704 ∧
    ¬ rows_inside 120000 40000 ∧ ¬ rows_disjoint 120000 40000 := by
  have h1 : image_data_size (align4 (int32 (120000 : Nat))) 40000 = 505032719 := by decide
  have h2 : row_start (align4 (int32 (120000 : Nat))) 5000 = 600000000 := by decide
  have h3 : row_start (align4 (int32 (120000 : Nat))) 35792 = 72704 := by decide
  have h4 : row_start (align4 (int32 (120000 : Nat))) 0 = 0 := by decide
  refine ⟨h1, h2, h3, ?_, ?_⟩
  · intro h
    have := h 5000 (by decide)
    rw [h1, h2] at this
    omega
  · intro h
    have := h 0 35792 (by decide) (by decide) (by decide)
    rw [h3, h4] at this
    omega

/-! ## What `png_read_image` leaves in memory -/

theorem write_rows_untouched (px : Nat → Nat → Byte) (n : Nat) (ps : List Nat)
    (k : Nat) (mem : Nat → Byte) (a : Nat)
    (h : ∀ p ∈ ps, ¬ (p ≤ a ∧ a < p + n)) :
    write_rows px n k ps mem a = mem a := by
  induction ps generalizing k mem with
  | nil => rfl
  | cons p ps ih =>
    rw [write_rows, ih _ _ (fun q hq => h q (List.mem_cons_of_mem _ hq))]
    exact if_neg (h p (List.mem_cons_self _ _))

theorem write_rows_last_hit (px : Nat → Nat → Byte) (n : Nat) (ps : List Nat)
    (k : Nat) (mem : Nat → Byte) (a i p : Nat)
    (hp : ps[i]? = some p) (hin : p ≤ a ∧ a < p + n)
    (hlater : ∀ j q, i < j → ps[j]? = some q → ¬ (q ≤ a ∧ a < q + n)) :
    write_rows px n k ps mem a = px (k + i) (a - p) := by
  induction ps generalizing k mem i with
  | nil => simp at hp
  | cons q ps ih =>
    rw [write_rows]
    cases i with
    | zero =>
      simp only [List.getElem?_cons_zero, Option.some.injEq] at hp
      subst hp
      rw [write_rows_untouched]
      · simp [hin]
      · intro r hr
        obtain ⟨j, hj⟩ := List.getElem?_of_mem hr
        exact hlater (j + 1) r (Nat.succ_pos j) (by simpa using hj)
    | succ i =>
      rw [ih (k + 1) _ i (by simpa using hp)
        (fun j r hij hj => hlater (j + 1) r (by omega) (by simpa using hj))]
      congr 1
      omega

theorem row_pointers_get (rowbytes : Int) (height i : Nat) (hi : i < height) :
    (row_pointers rowbytes height)[i]? = some (row_start rowbytes i) := by
  simp [row_pointers, List.getElem?_map, List.getElem?_range, hi]

theorem row_pointers_get_inv (rowbytes : Int) (height j q : Nat)
    (h : (row_pointers rowbytes height)[j]? = some q) :
    j < height ∧ q = row_start rowbytes j := by
  have hj : j < height := by
    by_contra hge
    have : (row_pointers rowbytes height)[j]? = none := by
      apply List.getElem?_eq_none
      simp [row_pointers]; omega
    rw [this] at h
    cases h
  rw [row_pointers_get rowbytes height j hj] at h
  exact ⟨hj, (Option.some.inj h).symm⟩

theorem pixels_get (size : Nat) (mem : Nat → Byte) (a : Nat) (h : a < size) :
    ((List.range size).map mem)[a]? = some (mem a) := by
  simp [List.getElem?_map, List.getElem?_range, h]

theorem int_to_u32_align4 (rb : Nat) (hpos : 0 < rb) (hfit : rb ≤ 2147483644) :
    rb ≤ int_to_u32 (align4 (int32 rb)) ∧
    int_to_u32 (align4 (int32 rb)) < rb + 4 ∧
    int_to_u32 (align4 (int32 rb)) % 4 = 0 := by
  have h1 : int32 (rb : Int) = rb := int32_of_fits _ (by omega) (by omega)
  have h2 := align4_of_fits (rb : Int) (by omega) (by omega)
  rw [h1, h2]
  unfold int_to_u32
  omega

theorem row_start_of_no_wrap (rowbytes : Int) (height i : Nat) (hi : i < height)
    (hnw : int_to_u32 rowbytes * height < 4294967296) :
    row_start rowbytes i = i * int_to_u32 rowbytes ∧
    i * int_to_u32 rowbytes + int_to_u32 rowbytes ≤ int_to_u32 rowbytes * height := by
  have h : (i + 1) * int_to_u32 rowbytes ≤ height * int_to_u32 rowbytes :=
    Nat.mul_le_mul_right _ hi
  rw [Nat.add_mul, Nat.one_mul, Nat.mul_comm height] at h
  refine ⟨?_, h⟩
  unfold row_start u32
  exact Nat.mod_eq_of_lt (by omega)

theorem image_data_size_of_no_wrap (rowbytes : Int) (height : Nat)
    (hnw : int_to_u32 rowbytes * height < 4294967296) :
    image_data_size rowbytes height = int_to_u32 rowbytes * height + 15 := by
  unfold image_data_size size_t u32 sizeof_png_byte
  omega

/-- Without wrap-around (aligned row size × height below `2^32`) every row lies
inside the block and the rows are pairwise disjoint. -/
theorem rows_safe_of_no_wrap (row_bytes height : Nat) (hpos : 0 < row_bytes)
    (hfit : row_bytes ≤ 2147483644)
    (hnw : int_to_u32 (align4 (int32 row_bytes)) * height < 4294967296) :
    rows_inside row_bytes height ∧ rows_disjoint row_bytes height := by
  obtain ⟨hle, -, -⟩ := int_to_u32_align4 row_bytes hpos hfit
  constructor
  · intro i hi
    obtain ⟨hs, hb⟩ := row_start_of_no_wrap _ height i hi hnw
    rw [hs, image_data_size_of_no_wrap _ _ hnw]
    omega
  · intro i j hi hj hij
    obtain ⟨hsi, -⟩ := row_start_of_no_wrap _ height i hi hnw
    obtain ⟨hsj, -⟩ := row_start_of_no_wrap _ height j hj hnw
    rw [hsi, hsj]
    rcases Nat.lt_or_gt_of_ne hij with hlt | hlt
    · left
      have := Nat.mul_le_mul_right (int_to_u32 (align4 (int32 row_bytes))) hlt
      rw [Nat.succ_mul] at this
      omega
    · right
      have := Nat.mul_le_mul_right (int_to_u32 (align4 (int32 row_bytes))) hlt
      rw [Nat.succ_mul] at this
      omega

/-- Without wrap-around a successful call returns `aligned × height + 15` bytes
in which byte `j` of row `i` sits at index `i × aligned + j`. -/
theorem layout_of_no_wrap (e : Env) (file_name : String) (ihdr : IHDR)
    (mem : Nat → Byte) (px : Nat → Nat → Byte)
    (h : header_parsed e file_name ihdr) (hd : ihdr.bit_depth = 8)
    (hc : ihdr.color_type = PNG_COLOR_TYPE_RGB ∨
      ihdr.color_type = PNG_COLOR_TYPE_RGB_ALPHA)
    (hr : rest_succeeds e mem px)
    (hpos : 0 < e.png.rowbytes) (hfit : e.png.rowbytes ≤ 2147483644)
    (hnw : int_to_u32 (align4 (int32 e.png.rowbytes)) * ihdr.height < 4294967296) :
    ∃ img, (luapng_load e).out = .ok img ∧
      img.width = ihdr.width ∧ img.height = ihdr.height ∧
      img.pixels.length =
        int_to_u32 (align4 (int32 e.png.rowbytes)) * ihdr.height + 15 ∧
      ∀ i j, i < ihdr.height → j < e.png.rowbytes →
        img.pixels[i * int_to_u32 (align4 (int32 e.png.rowbytes)) + j]? =
          some (px i j) := by
  rw [luapng_load_ok e file_name ihdr mem px h hd hc hr]
  refine ⟨_, rfl, rfl, rfl, ?_, ?_⟩
  · simp only [List.length_map, List.length_range]
    exact image_data_size_of_no_wrap _ _ hnw
  · intro i j hi hj
    obtain ⟨hle, -, -⟩ := int_to_u32_align4 _ hpos hfit
    obtain ⟨hs, hb⟩ := row_start_of_no_wrap _ ihdr.height i hi hnw
    rw [pixels_get _ _ _ (by rw [image_data_size_of_no_wrap _ _ hnw]; omega)]
    unfold png_read_image
    rw [write_rows_last_hit px _ _ 0 mem _ i _ (row_pointers_get _ _ i hi)
      (by rw [hs]; omega)]
    · rw [hs]
      simp
    · intro k q hik hq
      obtain ⟨hk, hq⟩ := row_pointers_get_inv _ _ _ _ hq
      obtain ⟨hsk, -⟩ := row_start_of_no_wrap _ ihdr.height k hk hnw
      rw [hq, hsk]
      have := Nat.mul_le_mul_right (int_to_u32 (align4 (int32 e.png.rowbytes))) hik
      rw [Nat.succ_mul] at this
      omega

/-- The 2×2 solid red RGB image: width 2, height 2, no alpha, aligned row size
8, 31 bytes in all, and the bytes 255,0,0,255,0,0 at offsets 0..5 and 8..13. -/
theorem load_red_scenario :
    ∃ img, (luapng_load env_red).out = .ok img ∧
      img.width = 2 ∧ img.height = 2 ∧ img.has_alpha = false ∧
      align4 (int32 6) = 8 ∧ img.pixels.length = 31 ∧
      img.pixels.take 6 = [255, 0, 0, 255, 0, 0] ∧
      (img.pixels.drop 8).take 6 = [255, 0, 0, 255, 0, 0] := by
  refine ⟨_, luapng_load_env_ok ⟨2, 2, 8, PNG_COLOR_TYPE_RGB⟩ 6 red rfl (Or.inl rfl),
    rfl, rfl, rfl, ?_, ?_, ?_, ?_⟩ <;> decide

/-- C4 at a 40000×40000 8-bit RGB image (rows of 120000 bytes, aligned row size
120000): the returned string has no byte at index 5000 × 120000, where row 5000
should start, and its byte 72704, which should be byte 72704 of row 0 (value
0), is byte 0 of row 35792 (value 255). -/
theorem load_big_rows_misplaced :
    ∃ img, (luapng_load env_big).out = .ok img ∧
      int_to_u32 (align4 (int32 120000)) = 120000 ∧
      img.pixels[5000 * 120000 + 0]? = none ∧
      img.pixels[0 * 120000 + 72704]? = some (red 35792 0) ∧
      red 35792 0 = 255 ∧ red 0 72704 = 0 := by
  have h := luapng_load_env_ok ⟨40000, 40000, 8, PNG_COLOR_TYPE_RGB⟩ 120000 red rfl (Or.inl rfl)
  have ha : int_to_u32 (align4 (int32 (120000 : Nat))) = 120000 := by decide
  have hsize : image_data_size (align4 (int32 (120000 : Nat))) 40000 = 505032719 := by
    decide
  have hstart : ∀ i, row_start (align4 (int32 (120000 : Nat))) i
      = (i * 120000) % 4294967296 := by
    intro i
    unfold row_start u32
    rw [ha]
  refine ⟨_, h, ha, ?_, ?_, by decide, by decide⟩
  · apply List.getElem?_eq_none
    simp only [List.length_map, List.length_range]
    rw [hsize]
    decide
  · rw [pixels_get _ _ _ (by rw [hsize]; decide)]
    unfold png_read_image
    rw [write_rows_last_hit red _ _ 0 _ _ 35792 _
      (row_pointers_get _ _ 35792 (by decide)) (by rw [hstart]; omega)]
    · rw [hstart]
    · intro k q hik hq
      obtain ⟨hk, hq⟩ := row_pointers_get_inv _ _ _ _ hq
      have hk : k < 40000 := hk
      have h1 : 4294967296 ≤ k * 120000 := by omega
      have h2 : k * 120000 - 4294967296 < 4294967296 := by omega
      rw [hq, hstart, Nat.mod_eq_sub_mod h1, Nat.mod_eq_of_lt h2]
      omega

/-- The same defect without any write outside the block: for a 1×2147483647
8-bit RGB image (rows of 3 bytes, aligned row size 4) every row is written
inside the 4294967307-byte block, yet the byte at index 1073741824 × 4, where
row 1073741824 should start, is still the initial content of the block. -/
theorem load_tall_rows_misplaced :
    ∃ img, (luapng_load env_tall).out = .ok img ∧
      rows_inside 3 2147483647 ∧
      int_to_u32 (align4 (int32 3)) = 4 ∧
      img.pixels[1073741824 * 4 + 0]? = some 0 ∧
      red 1073741824 0 = 255 := by
  have h := luapng_load_env_ok ⟨1, 2147483647, 8, PNG_COLOR_TYPE_RGB⟩ 3 red rfl (Or.inl rfl)
  have ha : int_to_u32 (align4 (int32 (3 : Nat))) = 4 := by decide
  have hsize : image_data_size (align4 (int32 (3 : Nat))) 2147483647 = 4294967307 := by
    decide
  have hstart : ∀ i, row_start (align4 (int32 (3 : Nat))) i = (i * 4) % 4294967296 := by
    intro i
    unfold row_start u32
    rw [ha]
  refine ⟨_, h, ?_, ha, ?_, by decide⟩
  · intro i hi
    rw [hsize, hstart]
    omega
  · rw [pixels_get _ _ _ (by rw [hsize]; decide)]
    unfold png_read_image
    rw [write_rows_untouched]
    intro p hp
    obtain ⟨i, -, rfl⟩ := List.mem_map.mp hp
    rw [hstart]
    omega

/-! ## Release of resources -/

theorem release_order_every_run (e : Env) :
    all_before Event.is_destroy Event.is_fclose (luapng_load e).trace = true ∧
    all_before Event.is_free Event.is_fclose (luapng_load e).trace = true := by
  simp only [luapng_load]
  repeat' split
  all_goals exact ⟨rfl, rfl⟩

theorem trace_of_no_row_pointers (e : Env) (file_name : String) (ihdr : IHDR)
    (mem : Nat → Byte) (h : header_parsed e file_name ihdr) (hd : ihdr.bit_depth = 8)
    (hc : ihdr.color_type = PNG_COLOR_TYPE_RGB ∨
      ihdr.color_type = PNG_COLOR_TYPE_RGB_ALPHA)
    (hu : e.png.read_update_info = true) (hm : e.image_data = some mem)
    (hp : e.row_pointers = false) :
    luapng_load e =
      ⟨[.fopen, .png_create_read_struct, .png_create_info_struct,
          .png_create_end_info_struct, .malloc_image_data,
          .png_destroy_read_struct true true, .free_image_data, .fclose],
        .error (luaL_error "%s: could not allocate memory for row pointers"
          [.s file_name])⟩ := by
  obtain ⟨harg, ⟨content, hfile, hsig⟩, h1, h2, h3, hinfo⟩ := h
  rcases hc with hc | hc <;>
  simp [luapng_load, harg, hfile, hsig, h1, h2, h3, hinfo, hd, hc, hu, hm, hp,
    PNG_COLOR_TYPE_RGB, PNG_COLOR_TYPE_RGB_ALPHA]

/-- C9, as stated, fails: when the allocation of the row pointers fails for the
2×2 red image, the pixel block is freed before the file is closed, so it is not
true that the file handle is closed before every buffer is freed. -/
theorem no_rows_frees_before_fclose :
    (luapng_load env_no_rows).trace =
      [.fopen, .png_create_read_struct, .png_create_info_struct,
        .png_create_end_info_struct, .malloc_image_data,
        .png_destroy_read_struct true true, .free_image_data, .fclose] ∧
    (luapng_load env_no_rows).out =
      .error (luaL_error "%s: could not allocate memory for row pointers"
        [.s "a.png"]) ∧
    all_before Event.is_fclose Event.is_free (luapng_load env_no_rows).trace = false := by
  decide

/-- C9, amended: every failing call raises an error, and on it the decoder
context, where it is released, is released before the file handle is closed,
and every buffer that is freed is freed before the file handle is closed; when
the allocation of the row pointers fails the releases are, in this order,
decoder context, pixel block, file handle. -/
theorem release_order_on_failure (e : Env)
    (hfail : ∀ img, (luapng_load e).out ≠ .ok img) :
    ((luapng_load e).out = .type_error ∨ ∃ err, (luapng_load e).out = .error err) ∧
    all_before Event.is_destroy Event.is_fclose (luapng_load e).trace = true ∧
    all_before Event.is_free Event.is_fclose (luapng_load e).trace = true ∧
    (∀ file_name ihdr mem, header_parsed e file_name ihdr → ihdr.bit_depth = 8 →
      (ihdr.color_type = PNG_COLOR_TYPE_RGB ∨
        ihdr.color_type = PNG_COLOR_TYPE_RGB_ALPHA) →
      e.png.read_update_info = true → e.image_data = some mem →
      e.row_pointers = false →
      (luapng_load e).trace.filter
          (fun x => x.is_destroy || x.is_free || x.is_fclose) =
        [.png_destroy_read_struct true true, .free_image_data, .fclose]) := by
  refine ⟨?_, (release_order_every_run e).1, (release_order_every_run e).2, ?_⟩
  · cases hout : (luapng_load e).out with
    | type_error => exact Or.inl rfl
    | error err => exact Or.inr ⟨err, rfl⟩
    | ok img => exact absurd hout (hfail img)
  intro file_name ihdr mem h hd hc hu hm hp
  rw [trace_of_no_row_pointers e file_name ihdr mem h hd hc hu hm hp]
  rfl

theorem release_order_on_failure_witness :
    (∀ img, (luapng_load env_no_rows).out ≠ .ok img) ∧
    all_before Event.is_destroy Event.is_fclose (luapng_load env_no_rows).trace = true ∧
    all_before Event.is_free Event.is_fclose (luapng_load env_no_rows).trace = true :=
  have h : ∀ img, (luapng_load env_no_rows).out ≠ .ok img := fun _ hc => by cases hc
  ⟨h, (release_order_on_failure env_no_rows h).2.1,
    (release_order_on_failure env_no_rows h).2.2.1⟩

/-- C7 at a 16-bit RGB image and at an 8-bit grayscale image: the call raises
the bit-depth error, respectively the color-type error, and returns with the
file handle still open and the whole decoder context still live; nothing was
released. -/
theorem rejected_header_leaks :
    (luapng_load env_deep).out =
      .error (luaL_error "%s: unsupported bit depth %d, must be 8" [.s "a.png", .d 16]) ∧
    (resources_after (luapng_load env_deep).trace).file = true ∧
    (resources_after (luapng_load env_deep).trace).decoder = true ∧
    (luapng_load env_deep).trace =
      [.fopen, .png_create_read_struct, .png_create_info_struct,
        .png_create_end_info_struct] ∧
    (luapng_load env_gray).out =
      .error (luaL_error "%s: unknown libpng color type %d" [.s "a.png", .d 0]) ∧
    (resources_after (luapng_load env_gray).trace).file = true ∧
    (resources_after (luapng_load env_gray).trace).decoder = true := by
  decide

/-- C8 at an 8-bit RGB file whose image data is damaged, so that libpng faults
in `png_read_image`: the call raises the libpng error, releases the decoder
context and the file handle, and leaves the pixel block and the row-pointer
array allocated. -/
theorem damaged_image_leaks_buffers :
    (luapng_load env_damaged).out =
      .error (luaL_error "error from libpng while loading %s" [.s "a.png"]) ∧
    (luapng_load env_damaged).trace =
      [.fopen, .png_create_read_struct, .png_create_info_struct,
        .png_create_end_info_struct, .malloc_image_data, .malloc_row_pointers,
        .png_destroy_read_struct true true, .fclose] ∧
    (resources_after (luapng_load env_damaged).trace).file = false ∧
    (resources_after (luapng_load env_damaged).trace).decoder = false ∧
    (resources_after (luapng_load env_damaged).trace).image_data = true ∧
    (resources_after (luapng_load env_damaged).trace).row_pointers = true := by
  decide

/-! ## The signature check -/

theorem not_png_of_full_header (e : Env) (file_name : String) (content : List Byte)
    (harg : e.arg = .string file_name) (hfile : e.file = some content)
    (hbuf : e.header.length = 8) (hlen : 8 ≤ content.length)
    (hsig : content.take 8 ≠ png_signature) :
    luapng_load e =
      ⟨[.fopen, .fclose], .error (luaL_error "%s is not a PNG" [.s file_name])⟩ := by
  have hdrop : e.header.drop 8 = [] := List.drop_eq_nil_of_le (by omega)
  have hread : fread e.header 8 content = content.take 8 := by
    unfold fread
    rw [Nat.min_eq_left hlen, hdrop, List.append_nil]
  simp [luapng_load, harg, hfile, hread, png_sig_cmp, hsig]

/-- C6 at an empty file opened while `header` still holds the eight signature
bytes: `fread` stores nothing, `png_sig_cmp` returns 0, the read struct is
created, and the call ends with the libpng error instead of "is not a PNG". -/
theorem empty_file_passes_signature_check :
    env_empty.file = some [] ∧
    ([] : List Byte).take 8 ≠ png_signature ∧
    fread env_empty.header 8 [] = png_signature ∧
    png_sig_cmp (fread env_empty.header 8 []) = 0 ∧
    (luapng_load env_empty).out =
      .error (luaL_error "error from libpng while loading %s" [.s "empty.bin"]) ∧
    (luapng_load env_empty).out ≠
      .error (luaL_error "%s is not a PNG" [.s "empty.bin"]) ∧
    Event.png_create_read_struct ∈ (luapng_load env_empty).trace := by
  decide

/-- Every failing call other than the two header-validation rejections returns
with the file handle closed and the decoder context released. -/
theorem failure_releases_file_and_decoder (e : Env) (err : LuaError)
    (hout : (luapng_load e).out = .error err)
    (h1 : err.fmt ≠ "%s: unsupported bit depth %d, must be 8")
    (h2 : err.fmt ≠ "%s: unknown libpng color type %d") :
    (resources_after (luapng_load e).trace).file = false ∧
    (resources_after (luapng_load e).trace).decoder = false := by
  revert hout
  simp only [luapng_load]
  repeat' split
  all_goals intro hout
  all_goals first
    | exact ⟨rfl, rfl⟩
    | (cases hout; first | exact absurd rfl h1 | exact absurd rfl h2)

/-- Every failing call other than a libpng fault returns with neither the pixel
block nor the row-pointer array allocated. -/
theorem failure_releases_buffers (e : Env) (err : LuaError)
    (hout : (luapng_load e).out = .error err)
    (h : err.fmt ≠ "error from libpng while loading %s") :
    (resources_after (luapng_load e).trace).image_data = false ∧
    (resources_after (luapng_load e).trace).row_pointers = false := by
  revert hout
  simp only [luapng_load]
  repeat' split
  all_goals intro hout
  all_goals first
    | exact ⟨rfl, rfl⟩
    | (cases hout; exact absurd rfl h)

end LuaPng
